import Mathlib

/-!
Verification of the readiness-rendezvous core of `src/src-tauri/src/lib.rs`
(the `SetupState` record, the `set_complete` Tauri command, and the spawned
`setup` background task) against its natural-language specification.

The Rust code is shallowly embedded: the `SetupState` struct becomes a Lean
structure of two booleans; the Tauri `AppHandle` window environment becomes an
explicit `App` record describing which webview windows exist, whether the host
hide/show operations succeed, and (as ghost instrumentation) how often the
transition block has been entered and how often its side effects succeeded;
the fallible command returns `Except String Unit`, mirroring the Rust
`Result<(), String>` and its exact error strings.
-/

/-- Embeds the Rust struct `SetupState { frontend_task: bool, backend_task: bool }`. -/
structure SetupState where
  frontend_task : Bool
  backend_task : Bool
deriving Repr, DecidableEq

/-- The window environment reachable through the Rust `AppHandle`, plus ghost
instrumentation. `splash_present` models whether
`app.get_webview_window("splashscreen")` returns `Some`, and `main_present`
the same for `"main"`; `close_error`/`show_error` model the host outcome of
`splash.close()` / `main.show()` (`some e` = the host operation fails with
message `e`). `splash_visible`/`main_visible` track surface visibility.
The ghost fields `transition_entered`, `closed_count` and `shown_count` count
entries into the transition block (lines 45–56 of `lib.rs`) and successful
close/show host operations; the Rust code has no such counters, they only
record the event history needed to state temporal properties. -/
structure App where
  splash_present : Bool
  splash_visible : Bool
  main_present : Bool
  main_visible : Bool
  close_error : Option String
  show_error : Option String
  transition_entered : Nat
  closed_count : Nat
  shown_count : Nat
deriving Repr, DecidableEq

/-- The transition block inlined in `set_complete` (`lib.rs` lines 45–56):
look up the `"splashscreen"` and `"main"` windows (both lookups happen before
any close, as in the source), then `if let Some(splash) … splash.close()?
else return Err("Splashscreen window not found")`, then
`if let Some(main) … main.show()? else return Err("Main window not found")`.
A successful close destroys the splashscreen window (later lookups return
`None`) and hides it; a successful show makes the main window visible. -/
def transition (app : App) : Except String Unit × App :=
  let app := { app with transition_entered := app.transition_entered + 1 }
  let splash_window : Option Unit := if app.splash_present then some () else none
  let main_window : Option Unit := if app.main_present then some () else none
  match splash_window with
  | none => (Except.error "Splashscreen window not found", app)
  | some _ =>
    match app.close_error with
    | some e => (Except.error ("Failed to close splashscreen: " ++ e), app)
    | none =>
      let app := { app with
        splash_present := false
        splash_visible := false
        closed_count := app.closed_count + 1 }
      match main_window with
      | none => (Except.error "Main window not found", app)
      | some _ =>
        match app.show_error with
        | some e => (Except.error ("Failed to show main window: " ++ e), app)
        | none =>
          (Except.ok (), { app with
            main_visible := true
            shown_count := app.shown_count + 1 })

/-- After the flag write, `set_complete` checks
`state_lock.backend_task && state_lock.frontend_task` (line 44) and, when both
hold, runs the transition block; the transition's `?`-propagated error becomes
the command's own error, with the already-written flag kept. -/
def check_and_transition (app : App) (state : SetupState) :
    Except String Unit × SetupState × App :=
  if state.backend_task && state.frontend_task then
    ((transition app).1, state, (transition app).2)
  else
    (Except.ok (), state, app)

/-- Embeds the Tauri command `set_complete` (`lib.rs` lines 32–58): match on
the task string, set the corresponding flag (an unknown string returns
`Err("Invalid task completed!")` before any mutation), then check whether both
flags are now true and, if so, run the transition block. -/
def set_complete (app : App) (state : SetupState) (task : String) :
    Except String Unit × SetupState × App :=
  match task with
  | "frontend" => check_and_transition app { state with frontend_task := true }
  | "backend" => check_and_transition app { state with backend_task := true }
  | _ => (Except.error "Invalid task completed!", state, app)

/-- A sequence of `set_complete` invocations (serialized, as the `Mutex`
serializes every interleaving of concurrent callers), returning the list of
per-call results together with the final state and window environment. -/
def runReports (app : App) (state : SetupState) :
    List String → List (Except String Unit) × SetupState × App
  | [] => ([], state, app)
  | t :: ts =>
    let step := set_complete app state t
    let rest := runReports step.2.2 step.2.1 ts
    (step.1 :: rest.1, rest.2.1, rest.2.2)

/-- The two `println!` lines that `setup` emits before reporting. -/
def setupBaseLogs : List String :=
  ["Performing really heavy backend setup task...",
   "Backend setup task completed!"]

/-- Embeds the spawned background task `setup` (`lib.rs` lines 61–72): after
its (timed) work and the two progress prints it calls `set_complete` once with
`"backend"`; on error it prints `"Setup failed: {e}"` and returns `Err(())`
(no retry, no other escalation — the spawned future's result is discarded). -/
def setup (app : App) (state : SetupState) :
    Except Unit Unit × SetupState × App × List String :=
  match (set_complete app state "backend").1 with
  | Except.ok _ =>
    (Except.ok (), (set_complete app state "backend").2.1,
     (set_complete app state "backend").2.2, setupBaseLogs)
  | Except.error e =>
    (Except.error (), (set_complete app state "backend").2.1,
     (set_complete app state "backend").2.2,
     setupBaseLogs ++ ["Setup failed: " ++ e])

/-- The process-start readiness state (`run`, lines 14–17): both flags false. -/
def state0 : SetupState := ⟨false, false⟩

/-- A healthy window environment at rendezvous time: the splashscreen window
exists and is visible, the main window exists and is hidden, and the host
close/show operations succeed. Ghost counters start at zero. -/
def healthyApp : App :=
  { splash_present := true
    splash_visible := true
    main_present := true
    main_visible := false
    close_error := none
    show_error := none
    transition_entered := 0
    closed_count := 0
    shown_count := 0 }

/-- Like `healthyApp`, but the splashscreen window is absent. -/
def noSplashApp : App := { healthyApp with splash_present := false, splash_visible := false }

/-- Events visible on the readiness-state mutex during one `set_complete`
call. `acquire` is `state.lock().unwrap()` (line 38); `flagWrite` is the flag
assignment in the `match` (lines 40–41); `transitionEnter` marks control
entering the transition block guarded by line 44; `release` is the drop of
the `MutexGuard`, which in the source happens when the function returns
(at the early `return Err` of line 42, at any `?` inside the transition
block, or at the final `Ok(())` of line 57). -/
inductive LockEvent where
  | acquire : LockEvent
  | flagWrite : String → LockEvent
  | transitionEnter : LockEvent
  | release : LockEvent
deriving Repr, DecidableEq

/-- The mutex-event trace of one `set_complete` call, read off the guard's
lifetime in the source: the guard is taken first, the flag write and the
both-done check (and, when it fires, the whole transition block) run while it
is held, and it is dropped only when the function returns. -/
def set_complete_events (state : SetupState) (task : String) : List LockEvent :=
  match task with
  | "frontend" =>
    let st := { state with frontend_task := true }
    LockEvent.acquire :: LockEvent.flagWrite task ::
      (if st.backend_task && st.frontend_task then
        [LockEvent.transitionEnter, LockEvent.release]
      else
        [LockEvent.release])
  | "backend" =>
    let st := { state with backend_task := true }
    LockEvent.acquire :: LockEvent.flagWrite task ::
      (if st.backend_task && st.frontend_task then
        [LockEvent.transitionEnter, LockEvent.release]
      else
        [LockEvent.release])
  | _ => [LockEvent.acquire, LockEvent.release]

/-- The transition steps in the order the specification narrates them: locate
the loading surface, hide it, locate the main surface, show it, each step
short-circuiting. Stated from the spec's words to compare with `transition`,
which (like the source) performs both window lookups up front. -/
def transition_spec_order (app : App) : Except String Unit × App :=
  let app := { app with transition_entered := app.transition_entered + 1 }
  match (if app.splash_present then some () else none : Option Unit) with
  | none => (Except.error "Splashscreen window not found", app)
  | some _ =>
    match app.close_error with
    | some e => (Except.error ("Failed to close splashscreen: " ++ e), app)
    | none =>
      let app := { app with
        splash_present := false
        splash_visible := false
        closed_count := app.closed_count + 1 }
      match (if app.main_present then some () else none : Option Unit) with
      | none => (Except.error "Main window not found", app)
      | some _ =>
        match app.show_error with
        | some e => (Except.error ("Failed to show main window: " ++ e), app)
        | none =>
          (Except.ok (), { app with
            main_visible := true
            shown_count := app.shown_count + 1 })

/-! ## General lemmas about the embedding -/

/-- The both-done check never alters the readiness flags. -/
theorem check_and_transition_state (app : App) (st : SetupState) :
    (check_and_transition app st).2.1 = st := by
  unfold check_and_transition
  split <;> rfl

/-- One `set_complete` call never lowers a readiness flag. -/
theorem set_complete_flags_mono (app : App) (st : SetupState) (t : String) :
    st.frontend_task ≤ (set_complete app st t).2.1.frontend_task ∧
    st.backend_task ≤ (set_complete app st t).2.1.backend_task := by
  obtain ⟨f, b⟩ := st
  unfold set_complete
  split <;> simp [check_and_transition_state]

/-- If a `set_complete` call leaves some flag false, it did not touch the
window environment (the both-done check failed, so the transition block was
not entered). -/
theorem set_complete_app_eq_of_not_both (app : App) (st : SetupState) (t : String)
    (h : (set_complete app st t).2.1.frontend_task = false ∨
         (set_complete app st t).2.1.backend_task = false) :
    (set_complete app st t).2.2 = app := by
  obtain ⟨f, b⟩ := st
  unfold set_complete at *
  split at h <;> cases f <;> cases b <;> simp_all [check_and_transition]

/-- A whole run of reports never lowers a readiness flag. -/
theorem runReports_flags_mono (calls : List String) (app : App) (st : SetupState) :
    st.frontend_task ≤ (runReports app st calls).2.1.frontend_task ∧
    st.backend_task ≤ (runReports app st calls).2.1.backend_task := by
  induction calls generalizing app st with
  | nil => simp [runReports]
  | cons t ts ih =>
    have h1 := set_complete_flags_mono app st t
    have h2 := ih (set_complete app st t).2.2 (set_complete app st t).2.1
    simp only [runReports]
    exact ⟨le_trans h1.1 h2.1, le_trans h1.2 h2.2⟩

/-- If a whole run of reports ends with some flag still false, the window
environment is exactly as it started: no call ever entered the transition
block. -/
theorem runReports_app_eq_of_not_both (calls : List String) (app : App) (st : SetupState)
    (h : (runReports app st calls).2.1.frontend_task = false ∨
         (runReports app st calls).2.1.backend_task = false) :
    (runReports app st calls).2.2 = app := by
  induction calls generalizing app st with
  | nil => rfl
  | cons t ts ih =>
    simp only [runReports] at h ⊢
    have hmono := runReports_flags_mono ts (set_complete app st t).2.2 (set_complete app st t).2.1
    have hstep : (set_complete app st t).2.1.frontend_task = false ∨
        (set_complete app st t).2.1.backend_task = false := by
      rcases h with h | h
      · left
        cases hx : (set_complete app st t).2.1.frontend_task
        · rfl
        · rw [hx] at hmono
          exact absurd hmono.1 (by simp [h])
      · right
        cases hx : (set_complete app st t).2.1.backend_task
        · rfl
        · rw [hx] at hmono
          exact absurd hmono.2 (by simp [h])
    rw [ih _ _ h]
    exact set_complete_app_eq_of_not_both app st t hstep

/-- The transition block preserves the history invariant: the splashscreen has
been successfully closed at most once, a still-present splashscreen means it
was never closed, and the main window was shown at most as often as the
splashscreen was closed. -/
theorem transition_closed_inv (app : App)
    (h1 : app.closed_count ≤ 1)
    (h2 : app.splash_present = true → app.closed_count = 0)
    (h3 : app.shown_count ≤ app.closed_count) :
    (transition app).2.closed_count ≤ 1 ∧
    ((transition app).2.splash_present = true → (transition app).2.closed_count = 0) ∧
    (transition app).2.shown_count ≤ (transition app).2.closed_count := by
  obtain ⟨sp, sv, mp, mv, ce, se, te, cc, sc⟩ := app
  cases sp <;> cases mp <;> cases ce <;> cases se <;>
    simp_all [transition]

/-- `set_complete` preserves the close/show history invariant. -/
theorem set_complete_closed_inv (app : App) (st : SetupState) (t : String)
    (h1 : app.closed_count ≤ 1)
    (h2 : app.splash_present = true → app.closed_count = 0)
    (h3 : app.shown_count ≤ app.closed_count) :
    (set_complete app st t).2.2.closed_count ≤ 1 ∧
    ((set_complete app st t).2.2.splash_present = true →
      (set_complete app st t).2.2.closed_count = 0) ∧
    (set_complete app st t).2.2.shown_count ≤ (set_complete app st t).2.2.closed_count := by
  unfold set_complete check_and_transition
  split
  · split
    · exact transition_closed_inv app h1 h2 h3
    · exact ⟨h1, h2, h3⟩
  · split
    · exact transition_closed_inv app h1 h2 h3
    · exact ⟨h1, h2, h3⟩
  · exact ⟨h1, h2, h3⟩

/-- A whole run of reports preserves the close/show history invariant. -/
theorem runReports_closed_inv (calls : List String) (app : App) (st : SetupState)
    (h1 : app.closed_count ≤ 1)
    (h2 : app.splash_present = true → app.closed_count = 0)
    (h3 : app.shown_count ≤ app.closed_count) :
    (runReports app st calls).2.2.closed_count ≤ 1 ∧
    ((runReports app st calls).2.2.splash_present = true →
      (runReports app st calls).2.2.closed_count = 0) ∧
    (runReports app st calls).2.2.shown_count ≤
      (runReports app st calls).2.2.closed_count := by
  induction calls generalizing app st with
  | nil => exact ⟨h1, h2, h3⟩
  | cons t ts ih =>
    simp only [runReports]
    obtain ⟨g1, g2, g3⟩ := set_complete_closed_inv app st t h1 h2 h3
    exact ih _ _ g1 g2 g3

/-- The source's transition block (both window lookups performed up front) is
extensionally the spec's step-ordered transition. -/
theorem transition_eq_spec_order (app : App) :
    transition app = transition_spec_order app := by
  obtain ⟨sp, sv, mp, mv, ce, se, te, cc, sc⟩ := app
  cases sp <;> cases mp <;> cases ce <;> cases se <;> rfl

/-! ## Claim theorems -/

/-- C1 counterexample: the claim says Transition is invoked exactly once and
no later call re-invokes it, but in the run `frontend, backend, frontend`
(N = 2, M = 1) the transition block is entered twice — once by the completing
second call and again by the third, later call. -/
theorem C1_counterexample :
    (runReports healthyApp state0 ["frontend", "backend", "frontend"]).2.2.transition_entered
      = 2 ∧
    ¬ (runReports healthyApp state0 ["frontend", "backend", "frontend"]).2.2.transition_entered
      = 1 :=
  ⟨rfl, by decide⟩

/-- C1 (amended): the transition block is entered by every valid report call
that observes both flags true, not only the first; what holds instead is that
the transition's successful side effects happen at most once per run — the
splashscreen is successfully closed at most once and the main window
successfully shown at most once, because a later entry finds the splashscreen
already gone and fails before reaching the show step. -/
theorem C1_transition_effect_at_most_once (calls : List String) (app : App) (st : SetupState)
    (h1 : app.closed_count ≤ 1)
    (h2 : app.splash_present = true → app.closed_count = 0)
    (h3 : app.shown_count ≤ app.closed_count) :
    (runReports app st calls).2.2.closed_count ≤ 1 ∧
    (runReports app st calls).2.2.shown_count ≤ 1 := by
  obtain ⟨g1, g2, g3⟩ := runReports_closed_inv calls app st h1 h2 h3
  exact ⟨g1, le_trans g3 g1⟩

/-- C1 witness: the at-most-once bound evaluated on the concrete interleaving
`frontend, backend, frontend` from a healthy start. -/
theorem C1_transition_effect_at_most_once_witness :
    (runReports healthyApp state0 ["frontend", "backend", "frontend"]).2.2.closed_count ≤ 1 ∧
    (runReports healthyApp state0 ["frontend", "backend", "frontend"]).2.2.shown_count ≤ 1 :=
  C1_transition_effect_at_most_once ["frontend", "backend", "frontend"] healthyApp state0
    (by decide) (by decide) (by decide)

/-- C2 counterexample: the claim says a valid report after both flags are
already true returns success and never errors, but the third call of
`frontend, backend, frontend` re-enters the transition block and fails with
`"Splashscreen window not found"` (the splashscreen was closed by the second
call). -/
theorem C2_counterexample :
    (runReports healthyApp state0 ["frontend", "backend", "frontend"]).1 =
      [Except.ok (), Except.ok (), Except.error "Splashscreen window not found"] ∧
    (runReports healthyApp state0 ["frontend", "backend", "frontend"]).1.getLast? =
      some (Except.error "Splashscreen window not found") :=
  ⟨rfl, rfl⟩

/-- C2 (amended): a duplicate report before the rendezvous completes is an
idempotent success that does not touch the window environment; but a valid
report after the rendezvous has completed (both flags true, splashscreen
already closed) re-enters the transition block and returns
`Err("Splashscreen window not found")` — without, however, re-performing any
close/show side effect. -/
theorem C2_duplicate_report_behavior (app : App) (st : SetupState)
    (hf : st.frontend_task = true) (hb : st.backend_task = true)
    (hs : app.splash_present = false) :
    (set_complete app st "frontend").1 = Except.error "Splashscreen window not found" ∧
    (set_complete app st "frontend").2.2.closed_count = app.closed_count ∧
    (set_complete app st "frontend").2.2.shown_count = app.shown_count ∧
    (set_complete app st "frontend").2.2.main_visible = app.main_visible ∧
    (∀ st' : SetupState, st'.backend_task = false →
      set_complete app st' "frontend" =
        (Except.ok (), { st' with frontend_task := true }, app)) := by
  obtain ⟨f, b⟩ := st
  subst hf hb
  refine ⟨?_, ?_, ?_, ?_, ?_⟩ <;>
    simp [set_complete, check_and_transition, transition, hs]

/-- C2 witness: the post-completion duplicate behavior evaluated with both
flags true and the splashscreen already closed. -/
theorem C2_duplicate_report_behavior_witness :
    (set_complete noSplashApp ⟨true, true⟩ "frontend").1 =
      Except.error "Splashscreen window not found" ∧
    (set_complete noSplashApp ⟨true, true⟩ "frontend").2.2.closed_count =
      noSplashApp.closed_count :=
  ⟨(C2_duplicate_report_behavior noSplashApp ⟨true, true⟩ rfl rfl rfl).1,
   (C2_duplicate_report_behavior noSplashApp ⟨true, true⟩ rfl rfl rfl).2.1⟩

/-- C3: a report with a task string that is neither `"frontend"` nor
`"backend"` returns the invalid-task error and leaves both the readiness state
and the window environment untouched (in particular no transition check
happens); and after such a call a valid `frontend` + `backend` pair still
completes the rendezvous normally (Scenario D). -/
theorem C3_invalid_task_rejected (app : App) (st : SetupState) (task : String)
    (hf : task ≠ "frontend") (hb : task ≠ "backend") :
    set_complete app st task = (Except.error "Invalid task completed!", st, app) ∧
    runReports healthyApp state0 ["typo", "frontend", "backend"] =
      ([Except.error "Invalid task completed!", Except.ok (), Except.ok ()],
       ⟨true, true⟩,
       { healthyApp with
          splash_present := false
          splash_visible := false
          main_visible := true
          transition_entered := 1
          closed_count := 1
          shown_count := 1 }) := by
  constructor
  · unfold set_complete
    split <;> simp_all
  · rfl

/-- C3 witness: the invalid task `"typo"` evaluated concretely. -/
theorem C3_invalid_task_rejected_witness :
    set_complete healthyApp state0 "typo" =
      (Except.error "Invalid task completed!", state0, healthyApp) :=
  (C3_invalid_task_rejected healthyApp state0 "typo" (by decide) (by decide)).1

/-- C4 counterexample: the claim says the winning report call completes
without propagating the Transition failure back, but with the splashscreen
window absent the winning `backend` call itself returns the transition error
`"Splashscreen window not found"` rather than success. -/
theorem C4_counterexample :
    (set_complete noSplashApp ⟨true, false⟩ "backend").1 =
      Except.error "Splashscreen window not found" ∧
    (set_complete noSplashApp ⟨true, false⟩ "backend").1 ≠ Except.ok () := by
  refine ⟨rfl, ?_⟩
  intro h
  rw [show (set_complete noSplashApp ⟨true, false⟩ "backend").1 =
      Except.error "Splashscreen window not found" from rfl] at h
  exact Except.noConfusion h

/-- C4 (amended): errors arising inside the transition block ARE returned to
the report call that triggered it — the winning call's result is exactly the
transition's result; in addition, when that winning call is the background
`setup` path, the error is also surfaced through the log as
`"Setup failed: …"` (and the spawned future's own `Err(())` is discarded). -/
theorem C4_transition_error_returned_to_caller (app : App) (st : SetupState)
    (hf : st.frontend_task = true) :
    (set_complete app st "backend").1 = (transition app).1 ∧
    (∀ e, (transition app).1 = Except.error e →
      (setup app st).1 = Except.error () ∧
      (setup app st).2.2.2 = setupBaseLogs ++ ["Setup failed: " ++ e]) := by
  obtain ⟨f, b⟩ := st
  subst hf
  have h1 : (set_complete app ⟨true, b⟩ "backend").1 = (transition app).1 := by
    simp [set_complete, check_and_transition]
  refine ⟨h1, fun e he => ?_⟩
  unfold setup
  rw [h1, he]
  exact ⟨rfl, rfl⟩

/-- C4 witness: with the splashscreen absent, the winning backend report run
through `setup` fails and logs the transition error. -/
theorem C4_transition_error_returned_to_caller_witness :
    (setup noSplashApp ⟨true, false⟩).1 = Except.error () ∧
    (setup noSplashApp ⟨true, false⟩).2.2.2 =
      setupBaseLogs ++ ["Setup failed: " ++ "Splashscreen window not found"] :=
  (C4_transition_error_returned_to_caller noSplashApp ⟨true, false⟩ rfl).2
    "Splashscreen window not found" rfl

/-- C5 counterexample: the claim says the completing call releases the lock
before invoking Transition, but in the mutex-event trace of the winning call
(`frontend` already true, reporting `backend`) the transition is entered
strictly before the guard is released — the release never precedes the
transition entry. -/
theorem C5_counterexample :
    set_complete_events ⟨true, false⟩ "backend" =
      [LockEvent.acquire, LockEvent.flagWrite "backend",
       LockEvent.transitionEnter, LockEvent.release] ∧
    LockEvent.transitionEnter ∈ set_complete_events ⟨true, false⟩ "backend" ∧
    ¬ (set_complete_events ⟨true, false⟩ "backend").indexOf LockEvent.release <
        (set_complete_events ⟨true, false⟩ "backend").indexOf LockEvent.transitionEnter := by
  refine ⟨rfl, by decide, by decide⟩

/-- C5 (amended): the `MutexGuard` on ReadinessState is held for the entire
`set_complete` call: every trace begins with the single lock acquisition and
ends with the single lock release, so the flag write, the both-done check and
(when it fires) the whole transition block all run while the lock is held;
the lock is released only when the call returns. -/
theorem C5_lock_held_for_entire_call (st : SetupState) (t : String) :
    (set_complete_events st t).head? = some LockEvent.acquire ∧
    (set_complete_events st t).getLast? = some LockEvent.release ∧
    (set_complete_events st t).count LockEvent.release = 1 ∧
    (set_complete_events st t).count LockEvent.acquire = 1 := by
  obtain ⟨f, b⟩ := st
  unfold set_complete_events
  split <;> cases f <;> cases b <;> simp [List.count_cons]

/-- C6: the transition behaves exactly as the spec's four ordered,
short-circuiting steps — it coincides with the step-ordered reference
`transition_spec_order`, and each failure point returns its error immediately
without performing the later steps: a missing loading surface yields
`"Splashscreen window not found"` with the main window never shown; a failing
close yields its host error without showing main; a missing main window
yields `"Main window not found"` after the splashscreen was closed; a failing
show yields its host error; and the all-success path closes the splashscreen
and shows the main window. -/
theorem C6_transition_steps_in_order (app : App) :
    transition app = transition_spec_order app ∧
    (app.splash_present = false →
      (transition app).1 = Except.error "Splashscreen window not found" ∧
      (transition app).2.main_visible = app.main_visible ∧
      (transition app).2.shown_count = app.shown_count ∧
      (transition app).2.closed_count = app.closed_count) ∧
    (∀ e, app.splash_present = true → app.close_error = some e →
      (transition app).1 = Except.error ("Failed to close splashscreen: " ++ e) ∧
      (transition app).2.main_visible = app.main_visible ∧
      (transition app).2.shown_count = app.shown_count) ∧
    (app.splash_present = true → app.close_error = none → app.main_present = false →
      (transition app).1 = Except.error "Main window not found" ∧
      (transition app).2.splash_present = false ∧
      (transition app).2.main_visible = app.main_visible) ∧
    (∀ e, app.splash_present = true → app.close_error = none → app.main_present = true →
      app.show_error = some e →
      (transition app).1 = Except.error ("Failed to show main window: " ++ e) ∧
      (transition app).2.main_visible = app.main_visible) ∧
    (app.splash_present = true → app.close_error = none → app.main_present = true →
      app.show_error = none →
      (transition app).1 = Except.ok () ∧
      (transition app).2.splash_present = false ∧
      (transition app).2.splash_visible = false ∧
      (transition app).2.main_visible = true) := by
  refine ⟨transition_eq_spec_order app, ?_, ?_, ?_, ?_, ?_⟩ <;>
    obtain ⟨sp, sv, mp, mv, ce, se, te, cc, sc⟩ := app <;>
      cases sp <;> cases mp <;> cases ce <;> cases se <;> simp_all [transition]

/-- C6 witness: Scenario E evaluated — with the loading surface missing, the
transition fails with the not-found error and the main surface is never
shown. -/
theorem C6_transition_steps_in_order_witness :
    (transition noSplashApp).1 = Except.error "Splashscreen window not found" ∧
    (transition noSplashApp).2.main_visible = noSplashApp.main_visible ∧
    (transition noSplashApp).2.shown_count = noSplashApp.shown_count ∧
    (transition noSplashApp).2.closed_count = noSplashApp.closed_count :=
  (C6_transition_steps_in_order noSplashApp).2.1 rfl

/-- C7: monotonicity of ReadinessState — over any run of reports from any
starting point, a readiness flag that is true stays true: neither flag is
ever reset to false. -/
theorem C7_flags_never_reset (calls : List String) (app : App) (st : SetupState) :
    st.frontend_task ≤ (runReports app st calls).2.1.frontend_task ∧
    st.backend_task ≤ (runReports app st calls).2.1.backend_task :=
  runReports_flags_mono calls app st

/-- C8: no premature transition — in any run from process start (both flags
false) after which one of the two flags is still false, the window
environment is exactly its initial value: the transition block was never
entered and both surfaces retain their pre-rendezvous visibility. -/
theorem C8_no_premature_transition (app : App) (calls : List String)
    (h : (runReports app state0 calls).2.1.frontend_task = false ∨
         (runReports app state0 calls).2.1.backend_task = false) :
    (runReports app state0 calls).2.2 = app ∧
    (runReports app state0 calls).2.2.transition_entered = app.transition_entered ∧
    (runReports app state0 calls).2.2.splash_visible = app.splash_visible ∧
    (runReports app state0 calls).2.2.main_visible = app.main_visible := by
  have he := runReports_app_eq_of_not_both calls app state0 h
  exact ⟨he, by rw [he], by rw [he], by rw [he]⟩

/-- C8 witness: after only the frontend has reported, nothing in the window
environment has changed. -/
theorem C8_no_premature_transition_witness :
    (runReports healthyApp state0 ["frontend"]).2.2 = healthyApp ∧
    (runReports healthyApp state0 ["frontend"]).2.2.transition_entered =
      healthyApp.transition_entered ∧
    (runReports healthyApp state0 ["frontend"]).2.2.splash_visible =
      healthyApp.splash_visible ∧
    (runReports healthyApp state0 ["frontend"]).2.2.main_visible =
      healthyApp.main_visible :=
  C8_no_premature_transition healthyApp ["frontend"] (Or.inr rfl)

/-- C9: the background `setup` task reports through the same entry point as
the frontend — its resulting readiness state and window environment are
exactly those of a single `set_complete` call with `"backend"` (so it reports
once, with no retry), it succeeds silently when the report succeeds, and on
reporting failure it only appends the `"Setup failed: …"` log line. -/
theorem C9_setup_reports_backend_once (app : App) (st : SetupState) :
    (setup app st).2.1 = (set_complete app st "backend").2.1 ∧
    (setup app st).2.2.1 = (set_complete app st "backend").2.2 ∧
    ((set_complete app st "backend").1 = Except.ok () →
      (setup app st).1 = Except.ok () ∧ (setup app st).2.2.2 = setupBaseLogs) ∧
    (∀ e, (set_complete app st "backend").1 = Except.error e →
      (setup app st).1 = Except.error () ∧
      (setup app st).2.2.2 = setupBaseLogs ++ ["Setup failed: " ++ e]) := by
  unfold setup
  rcases h : (set_complete app st "backend").1 with _ | e <;> simp [h]

/-- C9 witness: from process start with a healthy host, `setup` reports
backend successfully and logs only its two progress lines. -/
theorem C9_setup_reports_backend_once_witness :
    (setup healthyApp state0).1 = Except.ok () ∧
    (setup healthyApp state0).2.2.2 = setupBaseLogs :=
  (C9_setup_reports_backend_once healthyApp state0).2.2.1 rfl

/-- C10: a valid report can return an error while still having mutated
ReadinessState — when the frontend flag is already true and the splashscreen
window is missing, reporting `"backend"` returns the transition error, yet
the backend flag set by this call stays true, so the resulting state differs
from the initial one (no rollback on transition failure). -/
theorem C10_error_despite_mutation (app : App) (st : SetupState)
    (hs : app.splash_present = false) (hf : st.frontend_task = true)
    (hb : st.backend_task = false) :
    (set_complete app st "backend").1 = Except.error "Splashscreen window not found" ∧
    (set_complete app st "backend").2.1 = { st with backend_task := true } ∧
    (set_complete app st "backend").2.1 ≠ st := by
  obtain ⟨f, b⟩ := st
  subst hf hb
  refine ⟨?_, ?_, ?_⟩ <;> simp [set_complete, check_and_transition, transition, hs]

/-- C10 witness: the error-with-mutation behavior evaluated concretely. -/
theorem C10_error_despite_mutation_witness :
    (set_complete noSplashApp ⟨true, false⟩ "backend").1 =
      Except.error "Splashscreen window not found" ∧
    (set_complete noSplashApp ⟨true, false⟩ "backend").2.1 =
      { frontend_task := true, backend_task := true } ∧
    (set_complete noSplashApp ⟨true, false⟩ "backend").2.1 ≠
      (⟨true, false⟩ : SetupState) :=
  C10_error_despite_mutation noSplashApp ⟨true, false⟩ rfl rfl rfl
